import Mathlib

/-!
Verification development for `function-type-analyzer` (src/index.ts).

The program walks every TypeScript source file of a target folder with
ts-morph's `sourceFile.forEachDescendant`, and for every function-like node
(function declaration, arrow function, function expression) decides whether it
"returns JSX" via two checks:

* check 1 (lines 52-67): `body.forEachDescendant` looks for any JSX element,
  self-closing element or fragment among the strict descendants of the
  function's body; when one is found the callback sets `returnsJsx` and calls
  `traversal.skip()`.  Note that `traversal` there is the control object of the
  *outer* `sourceFile.forEachDescendant` callback (the inner callback only binds
  `descendant`), so the call does not affect the inner scan at all: it tells the
  outer traversal not to descend into the current function node's children.
* check 2 (lines 69-117): for declarations/expressions with a block body, and
  for arrow functions (concise body directly a JSX node, or block body), look
  only at top-level return statements whose expression is directly a JSX node.

The node gets counted in `jsxFunctionCount` when either check fired, otherwise
in `normalFunctionCount` (lines 119-125).

We embed the fragment of the TypeScript AST that this logic inspects as an
inductive tree: the node kinds the code tests with `Node.isX` predicates get
their own constructors, every other kind of node is `other`.  Fields the
analyzer never reads (names, parameters, modifiers, attributes, ...) are kept
as an uninterpreted child list so that traversal still sees them.
-/

namespace FunctionTypeAnalyzer

/-- Shallow embedding of the TypeScript AST fragment inspected by src/index.ts.
For function-like kinds and accessors, `body` is the node returned by
ts-morph's `getBody()` (absent for overload/ambient declarations) and `rest`
holds the remaining children (name, parameters, ...) in document order, before
the body.  `other` covers every node kind the analyzer does not test for. -/
inductive TsNode : Type where
  | functionDeclaration (body : Option TsNode) (rest : List TsNode)
  | functionExpression (body : TsNode) (rest : List TsNode)
  | arrowFunction (body : TsNode) (rest : List TsNode)
  | jsxElement (children : List TsNode)
  | jsxSelfClosingElement (children : List TsNode)
  | jsxFragment (children : List TsNode)
  | block (statements : List TsNode)
  | returnStatement (expr : Option TsNode)
  | methodDeclaration (body : Option TsNode) (rest : List TsNode)
  | constructorDeclaration (body : Option TsNode) (rest : List TsNode)
  | getAccessor (body : Option TsNode) (rest : List TsNode)
  | setAccessor (body : Option TsNode) (rest : List TsNode)
  | other (children : List TsNode)

/-- Embedding of `Node.isFunctionDeclaration` (line 46). -/
def isFunctionDeclaration : TsNode → Bool
  | .functionDeclaration _ _ => true
  | _ => false

/-- Embedding of `Node.isArrowFunction` (line 47). -/
def isArrowFunction : TsNode → Bool
  | .arrowFunction _ _ => true
  | _ => false

/-- Embedding of `Node.isFunctionExpression` (line 48). -/
def isFunctionExpression : TsNode → Bool
  | .functionExpression _ _ => true
  | _ => false

/-- The guard of lines 45-49: the node kinds that are enumerated and
classified. -/
def isFunctionLike (n : TsNode) : Bool :=
  isFunctionDeclaration n || isArrowFunction n || isFunctionExpression n

/-- Embedding of the JSX test repeated at lines 58-60, 82-84, 95-97 and
107-110: `Node.isJsxElement || Node.isJsxSelfClosingElement ||
Node.isJsxFragment`. -/
def isMarkupNode : TsNode → Bool
  | .jsxElement _ => true
  | .jsxSelfClosingElement _ => true
  | .jsxFragment _ => true
  | _ => false

/-- Embedding of `Node.isBlock` (lines 76, 102). -/
def isBlock : TsNode → Bool
  | .block _ => true
  | _ => false

/-- Embedding of `Node.isReturnStatement` (lines 78, 104). -/
def isReturnStatement : TsNode → Bool
  | .returnStatement _ => true
  | _ => false

/-- Embedding of ts-morph's `node.getBody()` (lines 54, 75, 92): the body of a
function-like node or accessor, absent for bodyless declarations (and for node
kinds without a body). -/
def getBody : TsNode → Option TsNode
  | .functionDeclaration body _ => body
  | .functionExpression body _ => some body
  | .arrowFunction body _ => some body
  | .methodDeclaration body _ => body
  | .constructorDeclaration body _ => body
  | .getAccessor body _ => body
  | .setAccessor body _ => body
  | _ => none

/-- Embedding of `Block.getStatements()` (lines 77, 103). -/
def getStatements : TsNode → List TsNode
  | .block statements => statements
  | _ => []

/-- Embedding of `ReturnStatement.getExpression()` (lines 79, 105). -/
def getExpression : TsNode → Option TsNode
  | .returnStatement expr => expr
  | _ => none

/-- The children of a node in document order, as ts-morph's traversals see
them (bodies come after names and parameters). -/
def childrenOf : TsNode → List TsNode
  | .functionDeclaration body rest => rest ++ body.toList
  | .functionExpression body rest => rest ++ [body]
  | .arrowFunction body rest => rest ++ [body]
  | .jsxElement children => children
  | .jsxSelfClosingElement children => children
  | .jsxFragment children => children
  | .block statements => statements
  | .returnStatement expr => expr.toList
  | .methodDeclaration body rest => rest ++ body.toList
  | .constructorDeclaration body rest => rest ++ body.toList
  | .getAccessor body rest => rest ++ body.toList
  | .setAccessor body rest => rest ++ body.toList
  | .other children => children

mutual
/-- Whether the subtree rooted at `n` (including `n` itself) contains a JSX
element, self-closing element or fragment. -/
def subtreeHasMarkup : TsNode → Bool
  | .functionDeclaration body rest => listHasMarkup rest || optionHasMarkup body
  | .functionExpression body rest => listHasMarkup rest || subtreeHasMarkup body
  | .arrowFunction body rest => listHasMarkup rest || subtreeHasMarkup body
  | .jsxElement _ => true
  | .jsxSelfClosingElement _ => true
  | .jsxFragment _ => true
  | .block statements => listHasMarkup statements
  | .returnStatement expr => optionHasMarkup expr
  | .methodDeclaration body rest => listHasMarkup rest || optionHasMarkup body
  | .constructorDeclaration body rest => listHasMarkup rest || optionHasMarkup body
  | .getAccessor body rest => listHasMarkup rest || optionHasMarkup body
  | .setAccessor body rest => listHasMarkup rest || optionHasMarkup body
  | .other children => listHasMarkup children

/-- Lift of `subtreeHasMarkup` to an optional node (absent means no markup). -/
def optionHasMarkup : Option TsNode → Bool
  | none => false
  | some n => subtreeHasMarkup n

/-- Whether some subtree rooted in the list contains a markup node. -/
def listHasMarkup : List TsNode → Bool
  | [] => false
  | n :: ns => subtreeHasMarkup n || listHasMarkup ns
end

/-- Check 1 (lines 52-67): `body.forEachDescendant` scans the strict
descendants of the function's body (not the body itself) and reports whether
any of them is a JSX node.  The `traversal.skip()` issued on a hit belongs to
the outer file traversal and does not change this boolean. -/
def subtreeJsxCheck (n : TsNode) : Bool :=
  match getBody n with
  | none => false
  | some body => listHasMarkup (childrenOf body)

/-- The per-statement test of lines 78-88 and 104-114: a return statement
whose expression is directly a JSX node. -/
def returnStatementReturnsJsx (stmt : TsNode) : Bool :=
  isReturnStatement stmt &&
    match getExpression stmt with
    | some expr => isMarkupNode expr
    | none => false

/-- Check 2 (lines 69-117): for function declarations and expressions, look at
the top-level statements of the block body for a return of a JSX node; for
arrow functions, a concise body that is directly a JSX node counts, otherwise
the block body's top-level returns are examined. -/
def directReturnCheck (n : TsNode) : Bool :=
  if isFunctionDeclaration n || isFunctionExpression n then
    match getBody n with
    | some blockBody =>
        isBlock blockBody && (getStatements blockBody).any returnStatementReturnsJsx
    | none => false
  else if isArrowFunction n then
    match getBody n with
    | some arrowBody =>
        if isMarkupNode arrowBody then true
        else if isBlock arrowBody then
          (getStatements arrowBody).any returnStatementReturnsJsx
        else false
    | none => false
  else false

/-- The `returnsJsx` flag after both checks ran (lines 50-117). -/
def returnsJsx (n : TsNode) : Bool :=
  subtreeJsxCheck n || directReturnCheck n

/-- The binary verdict assigned to one function-like node (spec section 3). -/
inductive Classification : Type where
  | markupProducing
  | plain
deriving DecidableEq

/-- The classification a function-like node receives at lines 119-125:
`jsxFunctionCount` is incremented exactly when `returnsJsx` ended up true. -/
def classify (n : TsNode) : Classification :=
  if returnsJsx n then .markupProducing else .plain

/-- Spec-side classifier for the refinement claim of spec section 4.2: the
classification computed by the subtree-presence check (check 1) alone, to be
compared with `classify` (check 1 or check 2). -/
def classifyBySubtreeCheckOnly (n : TsNode) : Classification :=
  if subtreeJsxCheck n then .markupProducing else .plain

/-- An arrow function with a concise (expression, non-block) body. -/
def isArrowWithExpressionBody : TsNode → Bool
  | .arrowFunction body _ => !(isBlock body)
  | _ => false

/-- TypeScript grammar guarantees that the body of a function declaration or a
function expression, when present, is a block.  The inductive `TsNode` is wider
than the grammar, so theorems that quantify over all nodes state this as a
hypothesis. -/
def bodyIsBlockForDeclarations : TsNode → Bool
  | .functionDeclaration (some b) _ => isBlock b
  | .functionExpression b _ => isBlock b
  | _ => true

mutual
/-- The nodes on which the callback of `sourceFile.forEachDescendant`
(lines 44-132) runs, in visit order, for the traversal rooted at `n`
(`n` included).  When the node is function-like and check 1 found markup, the
callback invoked `traversal.skip()` on this outer traversal's control
(line 64), so the node's descendants are not visited. -/
def visitedFrom : TsNode → List TsNode
  | n@(.functionDeclaration body rest) =>
      n :: (if subtreeJsxCheck n then [] else visitedList rest ++ visitedOption body)
  | n@(.functionExpression body rest) =>
      n :: (if subtreeJsxCheck n then [] else visitedList rest ++ visitedFrom body)
  | n@(.arrowFunction body rest) =>
      n :: (if subtreeJsxCheck n then [] else visitedList rest ++ visitedFrom body)
  | n@(.jsxElement children) => n :: visitedList children
  | n@(.jsxSelfClosingElement children) => n :: visitedList children
  | n@(.jsxFragment children) => n :: visitedList children
  | n@(.block statements) => n :: visitedList statements
  | n@(.returnStatement expr) => n :: visitedOption expr
  | n@(.methodDeclaration body rest) => n :: (visitedList rest ++ visitedOption body)
  | n@(.constructorDeclaration body rest) => n :: (visitedList rest ++ visitedOption body)
  | n@(.getAccessor body rest) => n :: (visitedList rest ++ visitedOption body)
  | n@(.setAccessor body rest) => n :: (visitedList rest ++ visitedOption body)
  | n@(.other children) => n :: visitedList children

/-- Traversal of an optional child. -/
def visitedOption : Option TsNode → List TsNode
  | none => []
  | some n => visitedFrom n

/-- Traversal of a list of sibling subtrees, left to right. -/
def visitedList : List TsNode → List TsNode
  | [] => []
  | n :: ns => visitedFrom n ++ visitedList ns
end

/-- A source file is represented by its list of top-level statements;
`sourceFile.forEachDescendant` visits every node of their subtrees (subject to
the skip of line 64). -/
def SourceFile : Type := List TsNode

/-- The function-like nodes the traversal actually classifies and counts: the
visited nodes passing the guard of lines 45-49, in visit order. -/
def enumeratedFunctions (file : SourceFile) : List TsNode :=
  (visitedList file).filter isFunctionLike

/-- Increments of `jsxFunctionCount` contributed by one file (line 120): one
per enumerated function-like node whose `returnsJsx` flag is true. -/
def jsxFunctionCount (file : SourceFile) : Nat :=
  ((enumeratedFunctions file).filter (fun n => returnsJsx n)).length

/-- Increments of `normalFunctionCount` contributed by one file (line 123). -/
def normalFunctionCount (file : SourceFile) : Nat :=
  ((enumeratedFunctions file).filter (fun n => !(returnsJsx n))).length

/-- Value of `jsxFunctionCount` after the loop over all source files. -/
def totalJsxFunctionCount (files : List SourceFile) : Nat :=
  (files.map jsxFunctionCount).sum

/-- Value of `normalFunctionCount` after the loop over all source files. -/
def totalNormalFunctionCount (files : List SourceFile) : Nat :=
  (files.map normalFunctionCount).sum

/-- The number printed as "Total functions found" (line 140): literally the
sum of the two counters. -/
def totalFunctionsFound (files : List SourceFile) : Nat :=
  totalJsxFunctionCount files + totalNormalFunctionCount files

/-- Total number of function-like nodes the enumerator visited, across all
files. -/
def totalEnumerated (files : List SourceFile) : Nat :=
  (files.map (fun file => (enumeratedFunctions file).length)).sum

/-- Scenario D, inner function: `function inner(){ return <p/>; }` (the `rest`
child models the identifier `inner`). -/
def scenarioDInner : TsNode :=
  .functionDeclaration
    (some (.block [.returnStatement (some (.jsxSelfClosingElement [.other []]))]))
    [.other []]

/-- Scenario D, outer function:
`function outer(){ function inner(){ return <p/>; } return 0; }`. -/
def scenarioDOuter : TsNode :=
  .functionDeclaration (some (.block [scenarioDInner, .returnStatement (some (.other []))]))
    [.other []]

/-- Scenario A shape: the markup node `<div/>` (child models the tag name
identifier; a self-closing element has no JSX node among its descendants). -/
def scenarioADiv : TsNode := .jsxSelfClosingElement [.other []]

/-- Arrow function with concise markup body: `() => <div/>`. -/
def arrowConciseDiv : TsNode := .arrowFunction scenarioADiv []

/-- Scenario C: `function f(){ const x = <span/>; console.log(x); return null; }`
(the variable statement and the call are `other` nodes; the markup sits inside
the first statement's subtree, not on any return path). -/
def scenarioCFunction : TsNode :=
  .functionDeclaration
    (some (.block
      [.other [.other [], .jsxSelfClosingElement [.other []]],
       .other [.other []],
       .returnStatement (some (.other []))]))
    [.other []]

/-- A function declaration with an empty body: `function f(){}`. -/
def emptyBodyFunction : TsNode := .functionDeclaration (some (.block [])) [.other []]

/-- Scenario B: `function f(){ return 1 + 1; }` (the returned sum is an
`other` node). -/
def scenarioBFunction : TsNode :=
  .functionDeclaration
    (some (.block [.returnStatement (some (.other [.other [], .other []]))]))
    [.other []]

/-- A named function declaration whose block body directly returns markup,
`function g(){ return <p></p>; }`; used to instantiate the refinement
equivalence on a block-bodied node. -/
def namedBlockReturningJsx : TsNode :=
  .functionDeclaration (some (.block [.returnStatement (some (.jsxElement [.other []]))]))
    [.other []]

/-- A class method whose body returns markup: `m(){ return <div/>; }`. -/
def methodReturningJsx : TsNode :=
  .methodDeclaration (some (.block [.returnStatement (some (.jsxSelfClosingElement []))]))
    [.other []]

/-- A plain arrow function sitting inside a class body. -/
def plainArrowInClass : TsNode := .arrowFunction (.other []) []

/-- A file whose only top-level statement is a class declaration (an `other`
node) holding a markup-returning method and a plain arrow function. -/
def classBodyFile : SourceFile := [.other [methodReturningJsx, plainArrowInClass]]

/-- Outcome of one process run, as observable at the interface the spec
describes: the exit code, whether a diagnostic went to standard error, and
whether the final report was printed. -/
structure DriverOutcome : Type where
  exitCode : Nat
  stderrDiagnostic : Bool
  reportPrinted : Bool
deriving DecidableEq

/-- Embedding of the top-level driver (lines 144-169).  The external facts the
code branches on are passed as booleans: whether `process.argv[2]` was
supplied, whether the resolved path exists and is a directory
(`fs.existsSync && fs.statSync(...).isDirectory()`), and whether
`analyzeFunctions` completed without throwing (the final report of lines
135-141 is printed only in that case; the `.catch` handler of lines 166-169
reports the error and exits 1). -/
def runCli (argSupplied : Bool) (targetIsDirectory : Bool) (analysisSucceeds : Bool) :
    DriverOutcome :=
  if !argSupplied then ⟨1, true, false⟩
  else if !targetIsDirectory then ⟨1, true, false⟩
  else if analysisSucceeds then ⟨0, false, true⟩
  else ⟨1, true, false⟩

/-- Markup detection distributes over list append. -/
theorem listHasMarkup_append (a b : List TsNode) :
    listHasMarkup (a ++ b) = (listHasMarkup a || listHasMarkup b) := by
  induction a with
  | nil => simp [listHasMarkup]
  | cons x xs ih => simp [listHasMarkup, ih, Bool.or_assoc]

/-- Markup detection on `Option.toList` agrees with the optional version. -/
theorem optionHasMarkup_toList (o : Option TsNode) :
    listHasMarkup o.toList = optionHasMarkup o := by
  cases o <;> simp [listHasMarkup, optionHasMarkup]

/-- Unfolding lemma: a subtree has markup iff its root is markup or some
child's subtree has markup. -/
theorem subtreeHasMarkup_eq (n : TsNode) :
    subtreeHasMarkup n = (isMarkupNode n || listHasMarkup (childrenOf n)) := by
  cases n <;>
    simp [subtreeHasMarkup, isMarkupNode, childrenOf, listHasMarkup,
      listHasMarkup_append, optionHasMarkup_toList, Bool.or_comm]

/-- A statement that passes the direct-return test contains markup in its
subtree. -/
theorem returnStatementReturnsJsx_markup (s : TsNode)
    (h : returnStatementReturnsJsx s = true) : subtreeHasMarkup s = true := by
  cases s with
  | returnStatement expr =>
      cases expr with
      | none => simp [returnStatementReturnsJsx, getExpression] at h
      | some e =>
          simp [returnStatementReturnsJsx, getExpression] at h
          cases e <;> simp_all [isMarkupNode, subtreeHasMarkup, optionHasMarkup]
  | _ => simp_all [returnStatementReturnsJsx, isReturnStatement]

/-- Markup detection on a list is an existential over its members. -/
theorem listHasMarkup_eq_any (l : List TsNode) :
    listHasMarkup l = l.any subtreeHasMarkup := by
  induction l with
  | nil => rfl
  | cons x xs ih => simp [listHasMarkup, ih]

/-- A statement list with a markup-returning member contains markup. -/
theorem listHasMarkup_of_returns (l : List TsNode)
    (h : l.any returnStatementReturnsJsx = true) : listHasMarkup l = true := by
  rw [listHasMarkup_eq_any]
  rcases List.any_eq_true.mp h with ⟨s, hs, hret⟩
  exact List.any_eq_true.mpr ⟨s, hs, returnStatementReturnsJsx_markup s hret⟩

/-- When check 1 fires, the body exists and its subtree contains markup. -/
theorem subtreeJsxCheck_hasMarkup (n : TsNode)
    (h : subtreeJsxCheck n = true) : optionHasMarkup (getBody n) = true := by
  unfold subtreeJsxCheck at h
  cases hb : getBody n with
  | none => rw [hb] at h; exact absurd h (by simp)
  | some b =>
      rw [hb] at h
      have hc : listHasMarkup (childrenOf b) = true := h
      show subtreeHasMarkup b = true
      rw [subtreeHasMarkup_eq]
      simp [hc]

/-- A block with a markup-returning top-level statement contains markup. -/
theorem blockReturns_subtree (b : TsNode) (hb : isBlock b = true)
    (h : (getStatements b).any returnStatementReturnsJsx = true) :
    subtreeHasMarkup b = true := by
  cases b <;> simp [isBlock] at hb
  exact listHasMarkup_of_returns _ h

/-- When check 2 fires, the body exists and its subtree contains markup. -/
theorem directReturnCheck_hasMarkup (n : TsNode)
    (h : directReturnCheck n = true) : optionHasMarkup (getBody n) = true := by
  cases n with
  | functionDeclaration body rest =>
      cases body with
      | none => simp [directReturnCheck, getBody, isFunctionDeclaration] at h
      | some b =>
          have hb : (isBlock b && (getStatements b).any returnStatementReturnsJsx) = true := by
            simpa [directReturnCheck, getBody, isFunctionDeclaration] using h
          obtain ⟨hblk, hany⟩ := Bool.and_eq_true_iff.mp hb
          show subtreeHasMarkup b = true
          exact blockReturns_subtree b hblk hany
  | functionExpression body rest =>
      have hb : (isBlock body && (getStatements body).any returnStatementReturnsJsx) = true := by
        simpa [directReturnCheck, getBody, isFunctionDeclaration, isFunctionExpression] using h
      obtain ⟨hblk, hany⟩ := Bool.and_eq_true_iff.mp hb
      show subtreeHasMarkup body = true
      exact blockReturns_subtree body hblk hany
  | arrowFunction body rest =>
      show subtreeHasMarkup body = true
      by_cases hm : isMarkupNode body = true
      · rw [subtreeHasMarkup_eq]; simp [hm]
      · by_cases hblk : isBlock body = true
        · have hany : (getStatements body).any returnStatementReturnsJsx = true := by
            simpa [directReturnCheck, getBody, isFunctionDeclaration, isFunctionExpression,
              isArrowFunction, hm, hblk] using h
          exact blockReturns_subtree body hblk hany
        · exact absurd h (by
            simp [directReturnCheck, getBody, isFunctionDeclaration, isFunctionExpression,
              isArrowFunction, hm, hblk])
  | _ =>
      simp_all [directReturnCheck, isFunctionDeclaration, isFunctionExpression, isArrowFunction]

/-- The verdict is MarkupProducing exactly when the `returnsJsx` flag is set. -/
theorem classify_eq_markup (n : TsNode) :
    classify n = Classification.markupProducing ↔ returnsJsx n = true := by
  unfold classify
  by_cases h : returnsJsx n = true <;> simp [h]

/-- The verdict is Plain exactly when the `returnsJsx` flag is not set. -/
theorem classify_eq_plain (n : TsNode) :
    classify n = Classification.plain ↔ returnsJsx n = false := by
  unfold classify
  by_cases h : returnsJsx n = true <;> simp [h]

/-- On block-bodied shapes, any hit of check 2 was already a hit of check 1:
the returned markup expression is a descendant of the body. -/
theorem directReturnCheck_le_subtreeJsxCheck (n : TsNode)
    (hnb : isArrowWithExpressionBody n = false)
    (h : directReturnCheck n = true) : subtreeJsxCheck n = true := by
  cases n with
  | functionDeclaration body rest =>
      cases body with
      | none => simp [directReturnCheck, getBody, isFunctionDeclaration] at h
      | some b =>
          have hb : (isBlock b && (getStatements b).any returnStatementReturnsJsx) = true := by
            simpa [directReturnCheck, getBody, isFunctionDeclaration] using h
          obtain ⟨hblk, hany⟩ := Bool.and_eq_true_iff.mp hb
          cases b <;> simp [isBlock] at hblk
          exact listHasMarkup_of_returns _ hany
  | functionExpression body rest =>
      have hb : (isBlock body && (getStatements body).any returnStatementReturnsJsx) = true := by
        simpa [directReturnCheck, getBody, isFunctionDeclaration, isFunctionExpression] using h
      obtain ⟨hblk, hany⟩ := Bool.and_eq_true_iff.mp hb
      cases body <;> simp [isBlock] at hblk
      exact listHasMarkup_of_returns _ hany
  | arrowFunction body rest =>
      have hblk : isBlock body = true := by
        simpa [isArrowWithExpressionBody] using hnb
      cases body <;> simp [isBlock] at hblk
      rename_i stmts
      have hany : stmts.any returnStatementReturnsJsx = true := by
        simpa [directReturnCheck, getBody, isFunctionDeclaration, isFunctionExpression,
          isArrowFunction, isMarkupNode, isBlock, getStatements] using h
      exact listHasMarkup_of_returns _ hany
  | _ =>
      simp_all [directReturnCheck, isFunctionDeclaration, isFunctionExpression, isArrowFunction]

/-- Splitting a list by a boolean predicate partitions its length. -/
theorem lengthFilterPair (p : TsNode → Bool) (l : List TsNode) :
    (l.filter p).length + (l.filter (fun a => !(p a))).length = l.length := by
  induction l with
  | nil => rfl
  | cons x xs ih =>
      by_cases hx : p x = true <;> simp [List.filter, hx, ih] <;> omega

/-- Per file, the two counters partition the enumerated function-like nodes. -/
theorem perFileCounterSplit (file : SourceFile) :
    jsxFunctionCount file + normalFunctionCount file = (enumeratedFunctions file).length :=
  lengthFilterPair (fun n => returnsJsx n) (enumeratedFunctions file)

/-- Claim C1 (code bug): on Scenario D,
`function outer(){ function inner(){ return <p/>; } return 0; }`, the code
does not enumerate `inner`: check 1 on `outer` finds the `<p/>` hidden in
`inner` and calls `traversal.skip()` on the file traversal (line 64), so the
descendants of `outer` — `inner` included — are never visited.  Only `outer`
is counted (MarkupProducing); the total is 1, not the 2 increments the claim
requires, even though `inner` is itself function-like. -/
theorem scenarioD_inner_function_skipped :
    enumeratedFunctions [scenarioDOuter] = [scenarioDOuter] ∧
    classify scenarioDOuter = .markupProducing ∧
    isFunctionLike scenarioDInner = true ∧
    jsxFunctionCount [scenarioDOuter] = 1 ∧
    normalFunctionCount [scenarioDOuter] = 0 ∧
    totalFunctionsFound [[scenarioDOuter]] = 1 ∧
    scenarioDInner ∉ enumeratedFunctions [scenarioDOuter] := by
  refine ⟨rfl, rfl, rfl, rfl, rfl, rfl, ?_⟩
  have he : enumeratedFunctions [scenarioDOuter] = [scenarioDOuter] := rfl
  rw [he]
  simp [scenarioDInner, scenarioDOuter]

/-- Claim C2, counterexample: for the arrow function `() => <div/>` the
subtree-presence check alone classifies Plain (a self-closing element has no
JSX node among its strict descendants), while the full classifier returns
MarkupProducing through the direct-return check — so check 2 does change the
outcome on this function-like node. -/
theorem arrowConcise_subtreeCheckOnly_differs :
    isFunctionLike arrowConciseDiv = true ∧
    classifyBySubtreeCheckOnly arrowConciseDiv ≠ classify arrowConciseDiv := by
  refine ⟨rfl, ?_⟩
  have h1 : classifyBySubtreeCheckOnly arrowConciseDiv = .plain := rfl
  have h2 : classify arrowConciseDiv = .markupProducing := rfl
  rw [h1, h2]
  simp

/-- Claim C2, amended: for every function-like node that is not an arrow
function with an expression (non-block) body, the classification computed by
check 1 alone equals the classification computed by check 1 or check 2 — on
those shapes any markup check 2 finds was already found by check 1. -/
theorem subtreeCheck_determines_outcome_for_block_bodies (n : TsNode)
    (_hfn : isFunctionLike n = true) (hnb : isArrowWithExpressionBody n = false) :
    classifyBySubtreeCheckOnly n = classify n := by
  unfold classifyBySubtreeCheckOnly classify returnsJsx
  by_cases h1 : subtreeJsxCheck n = true
  · simp [h1]
  · have h1f : subtreeJsxCheck n = false := by simpa using h1
    have h2 : directReturnCheck n = false := by
      by_contra hc
      rw [Bool.not_eq_false] at hc
      exact h1 (directReturnCheck_le_subtreeJsxCheck n hnb hc)
    simp [h1f, h2]

/-- Witness for the amended claim C2 at `function g(){ return <p></p>; }`. -/
theorem subtreeCheck_determines_outcome_witness :
    isFunctionLike namedBlockReturningJsx = true ∧
    isArrowWithExpressionBody namedBlockReturningJsx = false ∧
    classifyBySubtreeCheckOnly namedBlockReturningJsx = classify namedBlockReturningJsx :=
  ⟨rfl, rfl, subtreeCheck_determines_outcome_for_block_bodies namedBlockReturningJsx rfl rfl⟩

/-- Claim C3: a function-like node (with the grammatical block-body shape for
declarations and expressions) whose body subtree contains a markup node at any
depth is classified MarkupProducing — even when the markup is never returned,
as in Scenario C. -/
theorem markup_in_body_subtree_classified (n : TsNode)
    (_hfn : isFunctionLike n = true) (hgram : bodyIsBlockForDeclarations n = true)
    (hmk : optionHasMarkup (getBody n) = true) :
    classify n = .markupProducing := by
  rw [classify_eq_markup]
  unfold returnsJsx
  cases n with
  | functionDeclaration body rest =>
      cases body with
      | none => simp [optionHasMarkup, getBody] at hmk
      | some b =>
          have hblk : isBlock b = true := by
            simpa [bodyIsBlockForDeclarations] using hgram
          cases b <;> simp [isBlock] at hblk
          rename_i stmts
          have hl : listHasMarkup stmts = true := by
            simpa [getBody, optionHasMarkup, subtreeHasMarkup] using hmk
          have hs : subtreeJsxCheck (TsNode.functionDeclaration (some (.block stmts)) rest) =
              true := hl
          simp [hs]
  | functionExpression body rest =>
      have hblk : isBlock body = true := by
        simpa [bodyIsBlockForDeclarations] using hgram
      cases body <;> simp [isBlock] at hblk
      rename_i stmts
      have hl : listHasMarkup stmts = true := by
        simpa [getBody, optionHasMarkup, subtreeHasMarkup] using hmk
      have hs : subtreeJsxCheck (TsNode.functionExpression (.block stmts) rest) = true := hl
      simp [hs]
  | arrowFunction body rest =>
      have hb : subtreeHasMarkup body = true := hmk
      rw [subtreeHasMarkup_eq] at hb
      rcases Bool.or_eq_true_iff.mp hb with hm | hc
      · have hd : directReturnCheck (TsNode.arrowFunction body rest) = true := by
          simp [directReturnCheck, getBody, isFunctionDeclaration, isFunctionExpression,
            isArrowFunction, hm]
        simp [hd]
      · have hs : subtreeJsxCheck (TsNode.arrowFunction body rest) = true := hc
        simp [hs]
  | _ => simp_all [isFunctionLike, isFunctionDeclaration, isFunctionExpression, isArrowFunction]

/-- Witness for claim C3 at Scenario C, where the `<span/>` is only bound to a
local variable and never returned. -/
theorem markup_in_body_subtree_witness :
    isFunctionLike scenarioCFunction = true ∧
    bodyIsBlockForDeclarations scenarioCFunction = true ∧
    optionHasMarkup (getBody scenarioCFunction) = true ∧
    classify scenarioCFunction = .markupProducing :=
  ⟨rfl, rfl, rfl, markup_in_body_subtree_classified scenarioCFunction rfl rfl rfl⟩

/-- Claim C4: an arrow function whose expression body is directly a markup
node, such as `() => <div/>`, is classified MarkupProducing. -/
theorem arrow_expression_markup_body_classified (body : TsNode) (rest : List TsNode)
    (h : isMarkupNode body = true) :
    classify (TsNode.arrowFunction body rest) = .markupProducing := by
  rw [classify_eq_markup]
  unfold returnsJsx
  have hd : directReturnCheck (TsNode.arrowFunction body rest) = true := by
    simp [directReturnCheck, getBody, isFunctionDeclaration, isFunctionExpression,
      isArrowFunction, h]
  simp [hd]

/-- Witness for claim C4 at `() => <div/>`. -/
theorem arrow_expression_markup_body_witness :
    isMarkupNode scenarioADiv = true ∧
    classify (TsNode.arrowFunction scenarioADiv []) = .markupProducing :=
  ⟨rfl, arrow_expression_markup_body_classified scenarioADiv [] rfl⟩

/-- Claim C5: after every run, `jsxFunctionCount + normalFunctionCount` equals
the total number of function-like nodes the traversal enumerated across all
files (each enumerated node increments exactly one counter), and the reported
"Total functions found" is the sum of the two counters. -/
theorem counters_sum_to_enumerated_total (files : List SourceFile) :
    totalJsxFunctionCount files + totalNormalFunctionCount files = totalEnumerated files ∧
    totalFunctionsFound files = totalJsxFunctionCount files + totalNormalFunctionCount files := by
  constructor
  · induction files with
    | nil => rfl
    | cons f fs ih =>
        simp only [totalJsxFunctionCount, totalNormalFunctionCount, totalEnumerated,
          List.map_cons, List.sum_cons] at *
        have hf := perFileCounterSplit f
        omega
  · rfl

/-- Claim C6: a function-like node with an empty body, and more generally one
whose body subtree contains no markup node at all (hence in particular whose
top-level return statements return no markup), is classified Plain. -/
theorem no_markup_in_body_classified_plain (n : TsNode)
    (_hfn : isFunctionLike n = true)
    (h : getBody n = some (.block []) ∨ optionHasMarkup (getBody n) = false) :
    classify n = .plain := by
  have hno : optionHasMarkup (getBody n) = false := by
    rcases h with h | h
    · rw [h]; rfl
    · exact h
  rw [classify_eq_plain]
  unfold returnsJsx
  have h1 : subtreeJsxCheck n = false := by
    by_contra hc
    rw [Bool.not_eq_false] at hc
    rw [subtreeJsxCheck_hasMarkup n hc] at hno
    simp at hno
  have h2 : directReturnCheck n = false := by
    by_contra hc
    rw [Bool.not_eq_false] at hc
    rw [directReturnCheck_hasMarkup n hc] at hno
    simp at hno
  simp [h1, h2]

/-- Witness for claim C6 at `function f(){}` and at Scenario B,
`function f(){ return 1 + 1; }`. -/
theorem no_markup_in_body_witness :
    classify emptyBodyFunction = .plain ∧ classify scenarioBFunction = .plain :=
  ⟨no_markup_in_body_classified_plain emptyBodyFunction rfl (Or.inl rfl),
   no_markup_in_body_classified_plain scenarioBFunction rfl (Or.inr rfl)⟩

/-- Claim C7: classification is a total, deterministic function of the node's
subtree — `classify` is a pure Lean function of the node alone, so two runs on
the same node agree, and it always yields one of the two verdicts without
failing. -/
theorem classification_total_deterministic (n : TsNode) :
    classify n = classify n ∧
    (classify n = .markupProducing ∨ classify n = .plain) := by
  refine ⟨rfl, ?_⟩
  cases h : classify n with
  | markupProducing => exact Or.inl rfl
  | plain => exact Or.inr rfl

/-- Claim C8: the process exits 1 with a diagnostic on standard error and no
report whenever the argument is missing or does not resolve to an existing
directory, and any error raised during analysis is caught at the top level and
also produces exit code 1. -/
theorem cli_error_exits_one (argSupplied targetIsDirectory analysisSucceeds : Bool) :
    ((argSupplied && targetIsDirectory) = false →
       runCli argSupplied targetIsDirectory analysisSucceeds = ⟨1, true, false⟩) ∧
    (analysisSucceeds = false →
       (runCli argSupplied targetIsDirectory analysisSucceeds).exitCode = 1) := by
  revert argSupplied targetIsDirectory analysisSucceeds
  decide

/-- Witness for claim C8: a nonexistent target path (Scenario F) gives exit 1
with a diagnostic and no report, and a throwing analysis gives exit 1. -/
theorem cli_error_exits_one_witness :
    runCli true false true = ⟨1, true, false⟩ ∧
    (runCli true true false).exitCode = 1 :=
  ⟨(cli_error_exits_one true false true).1 rfl,
   (cli_error_exits_one true true false).2 rfl⟩

/-- Claim C9: a function declaration without a body (overload signature or
ambient declaration) still passes the function-like guard, is visited as its
own unit by the traversal (its remaining children are still descended into,
since check 1 cannot fire without a body), and is always classified Plain
because both checks require a body. -/
theorem bodyless_declaration_enumerated_plain (rest : List TsNode) :
    isFunctionLike (TsNode.functionDeclaration none rest) = true ∧
    classify (TsNode.functionDeclaration none rest) = .plain ∧
    visitedFrom (TsNode.functionDeclaration none rest) =
      TsNode.functionDeclaration none rest :: visitedList rest := by
  refine ⟨rfl, rfl, ?_⟩
  simp [visitedFrom, subtreeJsxCheck, getBody, visitedOption]

/-- Claim C10: only function declarations, arrow functions and function
expressions pass the enumeration guard — methods, class constructor
declarations and accessors never do, whatever their bodies hold — and every
node the traversal counts passes that guard, so no other kind ever reaches
either counter. -/
theorem only_three_function_kinds_counted :
    (∀ (body : Option TsNode) (rest : List TsNode),
       isFunctionLike (TsNode.methodDeclaration body rest) = false ∧
       isFunctionLike (TsNode.constructorDeclaration body rest) = false ∧
       isFunctionLike (TsNode.getAccessor body rest) = false ∧
       isFunctionLike (TsNode.setAccessor body rest) = false) ∧
    (∀ (file : SourceFile) (n : TsNode),
       n ∈ enumeratedFunctions file → isFunctionLike n = true) := by
  constructor
  · intro body rest
    exact ⟨rfl, rfl, rfl, rfl⟩
  · intro file n hn
    exact List.of_mem_filter hn

/-- Witness for claim C10: in a class body holding a markup-returning method
and a plain arrow function, the enumerated list is exactly the arrow
function. -/
theorem only_three_function_kinds_counted_witness :
    isFunctionLike methodReturningJsx = false ∧
    isFunctionLike plainArrowInClass = true :=
  ⟨(only_three_function_kinds_counted.1
      (some (.block [.returnStatement (some (.jsxSelfClosingElement []))])) [.other []]).1,
   only_three_function_kinds_counted.2 classBodyFile plainArrowInClass
     (show plainArrowInClass ∈ [plainArrowInClass] from List.mem_singleton.mpr rfl)⟩

end FunctionTypeAnalyzer
